import Mathlib

/-
Shallow embedding of the airbolt Home Assistant integration
(src/homeassistant/components/airbolt): the API data model
(airbolt_api/classes.py), the HTTP client retry/reauthentication logic
(airbolt_api/client.py), and the Tracker registry plus the polling
coordinator (hub.py).

Conventions used throughout:
  * Python float fields become Rat (the JSON payloads carry decimal numbers);
  * datetime fields become Int (an epoch timestamp; only equality of
    timestamps is ever consulted by the code under verification);
  * Literal[...] string enums become String;
  * pydantic EmailStr becomes String;
  * exceptions become an explicit error type threaded through results;
  * in-place mutation of Python objects becomes explicit state passing:
    a mutating method returns its Python return value paired with the
    updated object.
-/

/-- Python exceptions that can be raised by the code under verification.
httpError models the aiohttp error raised by response.raise_for_status,
validationError a pydantic schema mismatch, invalidCredentials
hub.InvalidCredentials, missingData hub.MissingDataError, keyError a
Python KeyError from a dict lookup, attributeError a Python
AttributeError from a missing attribute. -/
inductive PyError where
  | httpError : Nat → PyError
  | validationError : PyError
  | invalidCredentials : PyError
  | missingData : PyError
  | keyError : String → PyError
  | attributeError : String → PyError
deriving DecidableEq, Repr

/-- Result of running a piece of the Python code: a value, a raised
exception, or no result at all (non-terminating recursion; surfaced when
the recursion fuel runs out). -/
inductive Outcome (α : Type) where
  | ok : α → Outcome α
  | error : PyError → Outcome α
  | diverges : Outcome α
deriving DecidableEq, Repr

/-- Embeds airbolt_api.classes.UserInfo. -/
structure UserInfo where
  id : String
  username : String
  time_created : Int
  name : String
  email : String
  roles : List String
  failed_login_attempts : Int
  two_factor_enabled : Bool
  profile_picture : String
  blocked_until : Option String
  country : String
  currency : String
  timezone : String
  deleted : Bool
  cell_scan_limit : Int
deriving DecidableEq, Repr

/-- Embeds airbolt_api.classes.SessionInfo. -/
structure SessionInfo where
  id : String
  user_id : String
  key : String
  time : Int
  created_at : Int
  updated_at : Int
  v : Int
deriving DecidableEq, Repr

/-- Embeds airbolt_api.classes.LoginResult (UserInfo plus session data). -/
structure LoginResult extends UserInfo where
  session : SessionInfo
  auth_header : String
deriving DecidableEq, Repr

/-- Embeds airbolt_api.classes.TemperatureConfiguration. -/
structure TemperatureConfiguration where
  enable : Bool
  send_location : Bool
  realert_duration : Int
  condition : String
  level : Int
  unit : String
deriving DecidableEq, Repr

/-- Embeds airbolt_api.classes.AccelerometerConfiguration. -/
structure AccelerometerConfiguration where
  enable : Bool
  ultra_power_mode : Bool
  send_location : Bool
  sensitivity : Int
  duration : Int
deriving DecidableEq, Repr

/-- Embeds airbolt_api.classes.WaterAlarmConfiguration. -/
structure WaterAlarmConfiguration where
  enable : Bool
  send_location : Bool
  realert_duration : Int
deriving DecidableEq, Repr

/-- Embeds airbolt_api.classes.FoundDevice. -/
structure FoundDevice where
  id : String
  temperature : TemperatureConfiguration
  accelerometer : AccelerometerConfiguration
  water_alarm : WaterAlarmConfiguration
  device_type : String
  latitude : Rat
  longitude : Rat
  alert_level : Int
  last_history_time : Int
  mark_as_lost : Int
  tone : Int
  deleted : Bool
  color : Option String
  tsa_accessible : Bool
  modem_voltage : Int
  modem_temperature : Int
  modem_state : Int
  operating_mode : String
  schedule_report : List String
  schedule_report_interval : Int
  location_report_mode : String
  led_flash : Bool
  push_notification : Bool
  email_alerts : Bool
  location_update_notification : Bool
  sos_alert_notification : Bool
  alarm : Bool
  notification_emails : List String
  emergency_mode : Bool
  proximity : String
  device_uuid : String
  device_picture : String
  name : String
  time_created : Int
  last_seen_time : Int
  last_report_type : String
deriving DecidableEq, Repr

/-- Embeds airbolt_api.classes.HistoryEntry. -/
structure HistoryEntry where
  id : String
  device_uuid : String
  modem_voltage : Option Int
  modem_temperature : Option Int
  type : String
  time_created : Int
  latitude : Rat
  longitude : Rat
  accuracy : Rat
  location_changed : Bool
  duration : Int
  alert_type : String
  address : String
  last_seen_on : Int
deriving DecidableEq, Repr

/-- Embeds airbolt_api.classes.Pagination. -/
structure Pagination where
  total : Int
  total_pages : Int
  next : Int
  has_next : Bool
  prev : Int
  has_prev : Bool
  per_page : Int
  current : Int
deriving DecidableEq, Repr

/-- Embeds airbolt_api.classes.DeviceHistoryPage. -/
structure DeviceHistoryPage where
  success : Bool
  data : List HistoryEntry
  pagination : Pagination
deriving DecidableEq, Repr

/-- Embeds hub.Tracker's mutable state. Field names drop the Python
leading underscore; the two DeviceInfo fields declared on the class are
never assigned or read by the code under verification and are omitted. -/
structure Tracker where
  id : String
  name : String
  model : String
  last_report : Option HistoryEntry
deriving DecidableEq, Repr

/-- Embeds hub.Tracker.update_device: if both the stored name and the
stored model already equal the discovered record's name and device_type,
return False without writing; otherwise overwrite both fields and return
True. The result pairs the Python boolean with the updated object. -/
def Tracker.update_device (t : Tracker) (discovered_info : FoundDevice) :
    Bool × Tracker :=
  if t.name = discovered_info.name ∧ t.model = discovered_info.device_type then
    (false, t)
  else
    (true, { t with name := discovered_info.name,
                    model := discovered_info.device_type })

/-- Embeds hub.Tracker.update_location: if a last report is stored (a
stored pydantic object is always truthy) and its time_created equals the
new entry's time_created, return False and keep the stored entry;
otherwise store the new entry wholesale and return True. -/
def Tracker.update_location (t : Tracker) (history_entry : HistoryEntry) :
    Bool × Tracker :=
  match t.last_report with
  | some r =>
    if r.time_created = history_entry.time_created then
      (false, t)
    else
      (true, { t with last_report := some history_entry })
  | none => (true, { t with last_report := some history_entry })

/-- Embeds hub.Tracker's constructor: store the device_uuid, initialise
name and model to the empty string and the last report to None, then call
update_device with the discovered record (its boolean result is
discarded). -/
def Tracker.init (discovered_info : FoundDevice) : Tracker :=
  (Tracker.update_device
    { id := discovered_info.device_uuid,
      name := "",
      model := "",
      last_report := none }
    discovered_info).2

/-- Python int() applied to a rational number: truncation toward zero. -/
def pyInt (q : Rat) : Int := Int.tdiv q.num (Int.ofNat q.den)

/-- Embeds the hub.Tracker.latitude property. -/
def Tracker.latitude (t : Tracker) : Except PyError Rat :=
  match t.last_report with
  | none => Except.error PyError.missingData
  | some r => Except.ok r.latitude

/-- Embeds the hub.Tracker.longitude property. -/
def Tracker.longitude (t : Tracker) : Except PyError Rat :=
  match t.last_report with
  | none => Except.error PyError.missingData
  | some r => Except.ok r.longitude

/-- Embeds the hub.Tracker.accuracy property: int(accuracy or 10000),
where a Python float is falsy exactly when it is zero. -/
def Tracker.accuracy (t : Tracker) : Except PyError Int :=
  match t.last_report with
  | none => Except.error PyError.missingData
  | some r => Except.ok (pyInt (if r.accuracy = 0 then (10000 : Rat) else r.accuracy))

/-- Embeds the hub.Tracker.address property. -/
def Tracker.address (t : Tracker) : Except PyError String :=
  match t.last_report with
  | none => Except.error PyError.missingData
  | some r => Except.ok r.address

/-- Embeds the hub.Tracker.alert_type property. -/
def Tracker.alert_type (t : Tracker) : Except PyError String :=
  match t.last_report with
  | none => Except.error PyError.missingData
  | some r => Except.ok r.alert_type

/-- Embeds the hub.Tracker.last_report_time property. -/
def Tracker.last_report_time (t : Tracker) : Except PyError Int :=
  match t.last_report with
  | none => Except.error PyError.missingData
  | some r => Except.ok r.time_created

/-- Embeds the hub.Tracker.modem_temperature property. -/
def Tracker.modem_temperature (t : Tracker) : Except PyError (Option Int) :=
  match t.last_report with
  | none => Except.error PyError.missingData
  | some r => Except.ok r.modem_temperature

/-- Body of the POST issued by AirboltClient._reauthenticate:
a JSON object with the username, the password and an empty
two-factor code. -/
structure LoginBody where
  username : String
  password : String
  twoFactorCode : String
deriving DecidableEq, Repr

/-- One HTTP request issued through the shared aiohttp session. -/
inductive Request where
  | get : String → Request
  | post : String → LoginBody → Request
deriving DecidableEq, Repr

/-- Status and body of an HTTP response. -/
structure HttpResponse where
  status : Nat
  body : String
deriving DecidableEq, Repr

/-- The remote API, modelled as a function from the whole request history
(all requests issued on the session so far, newest last) to the response
for the newest request. -/
abbrev Server := List Request → HttpResponse

/-- Embeds AirboltClient's mutable state: the Authorization header value
kept on the session, the stored credentials, and the log of requests
issued so far (standing in for the aiohttp session's traffic). The
constructor leaves the Authorization header empty; username and password
are unset until login, modelled by empty strings (login always stores
both before any read). -/
structure ClientState where
  authHeader : String
  username : String
  password : String
  log : List Request
deriving DecidableEq, Repr

/-- Client state produced by AirboltClient's constructor. -/
def ClientState.init : ClientState :=
  { authHeader := "", username := "", password := "", log := [] }

/-- Embeds AirboltClient._get. The source wraps the request in
a while-retry loop, but sets retry to False before testing for 401 and
never resets it, so the loop body runs exactly once: a 200 returns the
body; a 401 sleeps 500 seconds (no state effect), runs reauthentication
(here the abstracted parameter), and then falls out of the loop to
response.raise_for_status(), which raises for the original 401 response;
any other status reaches raise_for_status directly. The reauthentication
call is abstracted as a parameter to keep the recursion through
AirboltClient._reauthenticate in one place. -/
def clientGetWith (reauth : ClientState → Outcome (LoginResult × ClientState))
    (server : Server) (path : String) (st : ClientState) :
    Outcome (String × ClientState) :=
  let st1 : ClientState := { st with log := st.log ++ [Request.get path] }
  let resp : HttpResponse := server st1.log
  if resp.status = 200 then
    Outcome.ok (resp.body, st1)
  else if resp.status = 401 then
    match reauth st1 with
    | Outcome.ok _ => Outcome.error (PyError.httpError resp.status)
    | Outcome.error e => Outcome.error e
    | Outcome.diverges => Outcome.diverges
  else
    Outcome.error (PyError.httpError resp.status)

/-- Embeds AirboltClient._post. Identical control flow to _get (the
source's extra duplicated retry-False assignment and the continue
statement change nothing: the loop condition is already False when the
continue re-checks it), with the request carrying a JSON body. -/
def clientPostWith (reauth : ClientState → Outcome (LoginResult × ClientState))
    (server : Server) (path : String) (body : LoginBody) (st : ClientState) :
    Outcome (String × ClientState) :=
  let st1 : ClientState := { st with log := st.log ++ [Request.post path body] }
  let resp : HttpResponse := server st1.log
  if resp.status = 200 then
    Outcome.ok (resp.body, st1)
  else if resp.status = 401 then
    match reauth st1 with
    | Outcome.ok _ => Outcome.error (PyError.httpError resp.status)
    | Outcome.error e => Outcome.error e
    | Outcome.diverges => Outcome.diverges
  else
    Outcome.error (PyError.httpError resp.status)

/-- Path of the login endpoint. -/
def loginPath : String := "login"

/-- Embeds AirboltClient._reauthenticate: POST the stored credentials to
the login endpoint through _post, parse the body as a LoginResult
(pydantic LoginResult.parse_raw, abstracted as the parse parameter,
raising a validation error on failure), and store the returned auth
header on the session. Because _post re-enters _reauthenticate on a 401,
the recursion is fueled; exhausted fuel is reported as divergence. -/
def clientReauthenticate (server : Server) (parse : String → Option LoginResult) :
    Nat → ClientState → Outcome (LoginResult × ClientState)
  | 0, _ => Outcome.diverges
  | Nat.succ fuel, st =>
    match clientPostWith (clientReauthenticate server parse fuel) server loginPath
        { username := st.username, password := st.password, twoFactorCode := "" } st with
    | Outcome.ok (raw, st1) =>
      match parse raw with
      | some result => Outcome.ok (result, { st1 with authHeader := result.auth_header })
      | none => Outcome.error PyError.validationError
    | Outcome.error e => Outcome.error e
    | Outcome.diverges => Outcome.diverges

/-- Embeds AirboltClient._get with the reauthentication logic plugged in. -/
def clientGet (server : Server) (parse : String → Option LoginResult)
    (fuel : Nat) (path : String) (st : ClientState) :
    Outcome (String × ClientState) :=
  clientGetWith (clientReauthenticate server parse fuel) server path st

/-- Embeds AirboltClient._post with the reauthentication logic plugged in. -/
def clientPost (server : Server) (parse : String → Option LoginResult)
    (fuel : Nat) (path : String) (body : LoginBody) (st : ClientState) :
    Outcome (String × ClientState) :=
  clientPostWith (clientReauthenticate server parse fuel) server path body st

/-- Embeds AirboltClient.login: store the credentials, then run
_reauthenticate. -/
def clientLogin (server : Server) (parse : String → Option LoginResult)
    (fuel : Nat) (username password : String) (st : ClientState) :
    Outcome (LoginResult × ClientState) :=
  clientReauthenticate server parse fuel
    { st with username := username, password := password }

/-- Embeds Hub._login: run AirboltClient.login and store the user; an
HTTP client error raised by the client is caught and re-raised as
InvalidCredentials. The source's except clause names
aiohttp.web.HTTPClientError; it is modelled here, charitably, as
catching the HTTP-status error raised by raise_for_status. Any other
exception propagates unchanged. -/
def hubLogin (server : Server) (parse : String → Option LoginResult)
    (fuel : Nat) (username password : String) (st : ClientState) :
    Outcome (LoginResult × ClientState) :=
  match clientLogin server parse fuel username password st with
  | Outcome.ok x => Outcome.ok x
  | Outcome.error (PyError.httpError _) => Outcome.error PyError.invalidCredentials
  | Outcome.error e => Outcome.error e
  | Outcome.diverges => Outcome.diverges

/-- The hub's device registry: Python dict from device id to Tracker,
modelled as an insertion-ordered association list. -/
abbrev DeviceMap := List (String × Tracker)

/-- Python dict lookup (None when the key is absent). -/
def dmLookup : DeviceMap → String → Option Tracker
  | [], _ => none
  | (k, t) :: rest, key => if k = key then some t else dmLookup rest key

/-- Python dict item assignment: replace the value in place when the key
exists, append at the end otherwise (matching dict insertion order). -/
def dmSet : DeviceMap → String → Tracker → DeviceMap
  | [], key, v => [(key, v)]
  | (k, t) :: rest, key, v =>
    if k = key then (key, v) :: rest else (k, t) :: dmSet rest key v

/-- Inner dict of the coordinator's published mapping: the values stored
under the keys device and location, each absent until assigned. -/
structure ChangeFlags where
  device : Option Bool
  location : Option Bool
deriving DecidableEq, Repr

/-- The coordinator's published result: Python
defaultdict(dict) from device id to ChangeFlags. -/
abbrev ChangeMap := List (String × ChangeFlags)

/-- Lookup in the published mapping. -/
def cmLookup : ChangeMap → String → Option ChangeFlags
  | [], _ => none
  | (k, f) :: rest, key => if k = key then some f else cmLookup rest key

/-- Embeds the statement coordinator_data[id][device-key] = b on a
defaultdict(dict): update the entry in place when present, create it
otherwise. -/
def cmSetDevice : ChangeMap → String → Bool → ChangeMap
  | [], key, b => [(key, { device := some b, location := none })]
  | (k, f) :: rest, key, b =>
    if k = key then (k, { f with device := some b }) :: rest
    else (k, f) :: cmSetDevice rest key b

/-- Name of the missing Tracker attribute referenced by the coordinator's
location loop. -/
def updateAttr : String := "update"

/-- One API call issued by the coordinator through the hub's client,
recorded for the cycle's request trace. -/
inductive ApiCall where
  | findDevices : ApiCall
  | history : String → Nat → Nat → ApiCall
deriving DecidableEq, Repr

/-- The hub's API client as seen by the coordinator: the results of
AirboltClient.find_devices and AirboltClient.get_device_history_page for
this cycle. Both run through the HTTP/parse layer modelled above, so
either can raise; they are abstracted here as given results so that the
coordinator logic can be verified against every possible client
behaviour. -/
structure ApiEnv where
  find_devices : Except PyError (List FoundDevice)
  get_device_history_page : String → Nat → Nat → Except PyError DeviceHistoryPage

/-- Embeds one iteration of the discovery loop of
AirboltCoordinator._async_update_data: a discovered device whose uuid is
already registered has update_device applied and the boolean recorded
under the device key; an unknown uuid gets a fresh Tracker registered and
nothing recorded. -/
def discoverStep (acc : DeviceMap × ChangeMap) (discovered_device : FoundDevice) :
    DeviceMap × ChangeMap :=
  let tracker_id := discovered_device.device_uuid
  match dmLookup acc.1 tracker_id with
  | some tracker =>
    let r := Tracker.update_device tracker discovered_device
    (dmSet acc.1 tracker_id r.2, cmSetDevice acc.2 tracker_id r.1)
  | none =>
    (dmSet acc.1 tracker_id (Tracker.init discovered_device), acc.2)

/-- Embeds the second loop of AirboltCoordinator._async_update_data, over
the subscribed tracker ids: look the id up in the registry (a Python dict
subscript, raising KeyError when absent), fetch one history page with
page=1 and page_size=1 for the tracker's id, and on success run the line
coordinator_data[id][location-key] = tracker.update(page.data[0]).
Tracker defines no attribute named update (its methods are update_device
and update_location), so that line raises AttributeError before
evaluating its argument. Returns the cycle result paired with the trace
of history calls issued. -/
def locationPhase (env : ApiEnv) :
    List String → DeviceMap → ChangeMap → Except PyError ChangeMap × List ApiCall
  | [], _, coordinator_data => (Except.ok coordinator_data, [])
  | tracker_id :: rest, devices, coordinator_data =>
    match dmLookup devices tracker_id with
    | none => (Except.error (PyError.keyError tracker_id), [])
    | some tracker =>
      match env.get_device_history_page tracker.id 1 1 with
      | Except.error e => (Except.error e, [ApiCall.history tracker.id 1 1])
      | Except.ok page =>
        if page.success then
          (Except.error (PyError.attributeError updateAttr),
            [ApiCall.history tracker.id 1 1])
        else
          let r := locationPhase env rest devices coordinator_data
          (r.1, ApiCall.history tracker.id 1 1 :: r.2)

/-- Embeds the body of the try block of
AirboltCoordinator._async_update_data: read the subscribed ids, discover
devices (merging into the registry), then poll history for each
subscribed id. The async-timeout wall clock is a real-time effect with no
bearing on the data flow and is not modelled. Returns the cycle result,
the registry after the cycle (its mutations persist even when the cycle
raises), and the trace of API calls. -/
def updateDataBody (env : ApiEnv) (listening_tracker_ids : List String)
    (devices : DeviceMap) :
    Except PyError ChangeMap × DeviceMap × List ApiCall :=
  match env.find_devices with
  | Except.error e => (Except.error e, devices, [ApiCall.findDevices])
  | Except.ok found =>
    let d := found.foldl discoverStep (devices, [])
    let r := locationPhase env listening_tracker_ids d.1 d.2
    (r.1, d.1, ApiCall.findDevices :: r.2)

/-- Result of a full coordinator cycle: the published mapping, or the
host scheduler's UpdateFailed raised from the underlying exception. -/
inductive CycleOutcome where
  | ok : ChangeMap → CycleOutcome
  | updateFailed : PyError → CycleOutcome
deriving DecidableEq, Repr

/-- Embeds AirboltCoordinator._async_update_data: run the try-block body;
any exception it raises is caught by the except-Exception clause and
re-raised as UpdateFailed from the original exception. -/
def asyncUpdateData (env : ApiEnv) (listening_tracker_ids : List String)
    (devices : DeviceMap) : CycleOutcome × DeviceMap × List ApiCall :=
  match updateDataBody env listening_tracker_ids devices with
  | (Except.ok data, devs, calls) => (CycleOutcome.ok data, devs, calls)
  | (Except.error e, devs, calls) => (CycleOutcome.updateFailed e, devs, calls)

/-- Distinguishes the coordinator's history fetches from its discovery
call in a cycle's request trace. -/
def isHistoryCall : ApiCall → Bool
  | ApiCall.findDevices => false
  | ApiCall.history _ _ _ => true

/-- Device uuid of the first concrete device. -/
def devA : String := "dev-a"

/-- Device uuid of the second concrete device. -/
def devB : String := "dev-b"

/-- Sample temperature configuration used by concrete test inputs. -/
def sampleTemp : TemperatureConfiguration :=
  { enable := false, send_location := false, realert_duration := 60,
    condition := "lessOrEqual", level := 0, unit := "c" }

/-- Sample accelerometer configuration used by concrete test inputs. -/
def sampleAccel : AccelerometerConfiguration :=
  { enable := false, ultra_power_mode := false, send_location := false,
    sensitivity := 5, duration := 0 }

/-- Sample water-alarm configuration used by concrete test inputs. -/
def sampleWater : WaterAlarmConfiguration :=
  { enable := false, send_location := false, realert_duration := 60 }

/-- Concrete discovered device with uuid dev-a. -/
def foundA : FoundDevice :=
  { id := "id-a", temperature := sampleTemp, accelerometer := sampleAccel,
    water_alarm := sampleWater, device_type := "shield_gps",
    latitude := 0, longitude := 0, alert_level := 0, last_history_time := 0,
    mark_as_lost := 0, tone := 0, deleted := false, color := none,
    tsa_accessible := false, modem_voltage := 3900, modem_temperature := 25,
    modem_state := 0, operating_mode := "batteryLife", schedule_report := [],
    schedule_report_interval := 0, location_report_mode := "once",
    led_flash := false, push_notification := false, email_alerts := false,
    location_update_notification := false, sos_alert_notification := false,
    alarm := false, notification_emails := [], emergency_mode := false,
    proximity := "medium", device_uuid := "dev-a", device_picture := "",
    name := "Keys", time_created := 0, last_seen_time := 0,
    last_report_type := "Schedule" }

/-- Concrete discovered device with uuid dev-b and a different name. -/
def foundB : FoundDevice :=
  { foundA with id := "id-b", device_uuid := "dev-b", name := "Bag" }

/-- Concrete discovered device: dev-a rediscovered under a new name. -/
def foundA2 : FoundDevice :=
  { foundA with name := "House keys" }

/-- Concrete history entry at timestamp 100. -/
def entryT1 : HistoryEntry :=
  { id := "h1", device_uuid := "dev-a", modem_voltage := some 3926,
    modem_temperature := some 25, type := "mcell", time_created := 100,
    latitude := 10, longitude := 20, accuracy := 807957 / 1000,
    location_changed := true, duration := 0, alert_type := "Motion",
    address := "Little River Turnpike", last_seen_on := 100 }

/-- Concrete history entry sharing timestamp 100 with entryT1 but with
every other payload field different. -/
def entryT1b : HistoryEntry :=
  { id := "h1b", device_uuid := "dev-a", modem_voltage := some 3800,
    modem_temperature := some 30, type := "gps", time_created := 100,
    latitude := 11, longitude := 21, accuracy := 5,
    location_changed := false, duration := 1, alert_type := "SOS",
    address := "Elsewhere", last_seen_on := 101 }

/-- Concrete history entry at the later timestamp 200. -/
def entryT2 : HistoryEntry :=
  { entryT1 with
    id := "h2", time_created := 200, latitude := 11, last_seen_on := 200 }

/-- Concrete history entry whose accuracy is zero (falsy in Python). -/
def entryAcc0 : HistoryEntry :=
  { entryT1 with id := "h0", accuracy := 0 }

/-- Concrete session data for a successful login. -/
def sampleSession : SessionInfo :=
  { id := "sess-1", user_id := "user-1", key := "k", time := 0,
    created_at := 0, updated_at := 0, v := 0 }

/-- Concrete login result returned by the sample login parser. -/
def sampleLogin : LoginResult :=
  { id := "user-1", username := "alice", time_created := 0, name := "Alice",
    email := "alice@example.com", roles := [], failed_login_attempts := 0,
    two_factor_enabled := false, profile_picture := "", blocked_until := none,
    country := "US", currency := "USD", timezone := "UTC", deleted := false,
    cell_scan_limit := 150, session := sampleSession,
    auth_header := "Bearer token-1" }

/-- Body of a successful login response in the concrete scenarios. -/
def credOkBody : String := "login-ok"

/-- Body returned for the retried request in the C1 scenario. -/
def payloadBody : String := "payload"

/-- Parser standing in for LoginResult.parse_raw in the concrete
scenarios: the known good body parses, everything else fails
validation. -/
def sampleParse : String → Option LoginResult :=
  fun s => if s = credOkBody then some sampleLogin else none

/-- Path requested in the C1 scenario. -/
def pathUsersMe : String := "users/me"

/-- Server for the C1 scenario: the first request on the session is
answered 401, the second (the reauthentication login POST) succeeds with
a parseable body, and any further request (in particular a retry of the
original one) would be answered 200 with the requested payload. -/
def retryServer : Server := fun log =>
  if log.length = 1 then { status := 401, body := "" }
  else if log.length = 2 then { status := 200, body := credOkBody }
  else { status := 200, body := payloadBody }

/-- Server that answers 401 to every request: the behaviour of the login
endpoint when the stored credentials are invalid. -/
def alwaysUnauthorized : Server := fun _ => { status := 401, body := "" }

/-- The tracker registered for dev-a, seeded with the entryT1 location. -/
def trackerA : Tracker :=
  ((Tracker.init foundA).update_location entryT1).2

/-- Registry holding exactly the dev-a tracker. -/
def devicesA : DeviceMap := [(devA, trackerA)]

/-- History page carrying entryT2 with the success flag set. -/
def pageT2 : DeviceHistoryPage :=
  { success := true, data := [entryT2],
    pagination := { total := 1, total_pages := 1, next := 2, has_next := false,
                    prev := 0, has_prev := false, per_page := 1, current := 1 } }

/-- Client environment for the C2 scenario: discovery returns dev-a and
the new dev-b, and every history fetch succeeds with pageT2. -/
def envC2 : ApiEnv :=
  { find_devices := Except.ok [foundA, foundB],
    get_device_history_page := fun _ _ _ => Except.ok pageT2 }

/-- Client environment whose discovery call raises an HTTP error 500. -/
def envDiscoveryFails : ApiEnv :=
  { find_devices := Except.error (PyError.httpError 500),
    get_device_history_page := fun _ _ _ => Except.ok pageT2 }

/-- Client environment for the C9 witness: discovery returns dev-a and
dev-b, and every history fetch reports success false, so the cycle
publishes a mapping. -/
def envC9 : ApiEnv :=
  { find_devices := Except.ok [foundA, foundB],
    get_device_history_page := fun _ _ _ =>
      Except.ok { pageT2 with success := false, data := [] } }

/-- C4: hub.Tracker.update_location returns false and leaves the stored
entry unchanged exactly when a stored entry exists whose timestamp equals
the new entry's timestamp; otherwise it returns true and replaces the
stored entry wholesale with the new entry (no field of the old entry is
carried over); in particular a second call with an entry sharing the
just-stored entry's timestamp returns false. -/
theorem claim_C4_update_location (t : Tracker) (e e2 : HistoryEntry) :
    ((t.update_location e).1 = false ↔
      ∃ r, t.last_report = some r ∧ r.time_created = e.time_created)
    ∧ ((t.update_location e).1 = false → (t.update_location e).2 = t)
    ∧ ((t.update_location e).1 = true →
      (t.update_location e).2 = { t with last_report := some e })
    ∧ (e2.time_created = e.time_created →
      (((t.update_location e).2).update_location e2).1 = false) := by
  cases h : t.last_report with
  | none =>
    refine ⟨by simp [Tracker.update_location, h], ?_, ?_, ?_⟩
    · simp [Tracker.update_location, h]
    · intro _
      simp [Tracker.update_location, h]
    · intro h2
      simp [Tracker.update_location, h, h2]
  | some r =>
    by_cases htc : r.time_created = e.time_created
    · refine ⟨?_, ?_, ?_, ?_⟩
      · simp [Tracker.update_location, h, htc]
      · intro _
        simp [Tracker.update_location, h, htc]
      · intro hx
        exfalso
        simp [Tracker.update_location, h, htc] at hx
      · intro h2
        simp [Tracker.update_location, h, htc, h2]
    · refine ⟨?_, ?_, ?_, ?_⟩
      · simp [Tracker.update_location, h, htc]
      · intro hx
        exfalso
        simp [Tracker.update_location, h, htc] at hx
      · intro _
        simp [Tracker.update_location, h, htc]
      · intro h2
        simp [Tracker.update_location, h, htc, h2]

/-- C4 witness: on the dev-a tracker holding entryT1 (timestamp 100), an
entry with the same timestamp is rejected without change, a later entry
replaces the stored one, and repeating the later timestamp returns
false. -/
theorem claim_C4_witness :
    ((trackerA.update_location entryT1b).1 = false)
    ∧ ((trackerA.update_location entryT1b).2 = trackerA)
    ∧ ((trackerA.update_location entryT2).2
        = { trackerA with last_report := some entryT2 })
    ∧ ((((trackerA.update_location entryT2).2).update_location entryT2).1 = false) := by
  refine ⟨?_, ?_, ?_, ?_⟩
  · exact (claim_C4_update_location trackerA entryT1b entryT1b).1.mpr
      ⟨entryT1, rfl, rfl⟩
  · exact (claim_C4_update_location trackerA entryT1b entryT1b).2.1 rfl
  · exact (claim_C4_update_location trackerA entryT2 entryT2).2.2.1 rfl
  · exact (claim_C4_update_location trackerA entryT2 entryT2).2.2.2 rfl

/-- C5: after hub.Tracker.update_device the stored name and model equal
the discovered record's name and device_type, whatever the comparison
outcome, and the returned boolean is true exactly when the record's name
or device_type differed from the previously stored values. -/
theorem claim_C5_update_device (t : Tracker) (d : FoundDevice) :
    ((t.update_device d).2.name = d.name)
    ∧ ((t.update_device d).2.model = d.device_type)
    ∧ ((t.update_device d).1 = true ↔ (t.name ≠ d.name ∨ t.model ≠ d.device_type)) := by
  by_cases hn : t.name = d.name ∧ t.model = d.device_type
  · refine ⟨?_, ?_, ?_⟩
    · simp [Tracker.update_device, hn, hn.1]
    · simp [Tracker.update_device, hn, hn.2]
    · simp [Tracker.update_device, hn, hn.1, hn.2]
  · refine ⟨?_, ?_, ?_⟩
    · simp [Tracker.update_device, hn]
    · simp [Tracker.update_device, hn]
    · simp [Tracker.update_device, hn]
      tauto

/-- C5 witness: rediscovering dev-a under a changed name overwrites the
stored name and reports true; the report is true because the name
differs. -/
theorem claim_C5_witness :
    ((trackerA.update_device foundA2).2.name = foundA2.name)
    ∧ ((trackerA.update_device foundA2).1 = true) := by
  refine ⟨(claim_C5_update_device trackerA foundA2).1, ?_⟩
  exact (claim_C5_update_device trackerA foundA2).2.2.mpr (Or.inl (by decide))

/-- C6: on a Tracker that has never recorded a location (last report
None, as a freshly constructed Tracker), every location-derived accessor
raises MissingDataError; once any location has been recorded the stored
report is set and stays set (update_device does not touch it), and none
of the accessors raises MissingDataError. -/
theorem claim_C6_missing_data (t : Tracker) (d : FoundDevice) (e : HistoryEntry) :
    ((Tracker.init d).last_report = none)
    ∧ (t.last_report = none →
        t.latitude = Except.error PyError.missingData
        ∧ t.longitude = Except.error PyError.missingData
        ∧ t.accuracy = Except.error PyError.missingData
        ∧ t.address = Except.error PyError.missingData
        ∧ t.alert_type = Except.error PyError.missingData
        ∧ t.last_report_time = Except.error PyError.missingData
        ∧ t.modem_temperature = Except.error PyError.missingData)
    ∧ (((t.update_location e).2).last_report.isSome)
    ∧ (((t.update_device d).2).last_report = t.last_report)
    ∧ (t.last_report.isSome →
        t.latitude ≠ Except.error PyError.missingData
        ∧ t.longitude ≠ Except.error PyError.missingData
        ∧ t.accuracy ≠ Except.error PyError.missingData
        ∧ t.address ≠ Except.error PyError.missingData
        ∧ t.alert_type ≠ Except.error PyError.missingData
        ∧ t.last_report_time ≠ Except.error PyError.missingData
        ∧ t.modem_temperature ≠ Except.error PyError.missingData) := by
  refine ⟨?_, ?_, ?_, ?_, ?_⟩
  · unfold Tracker.init Tracker.update_device
    split <;> rfl
  · intro h
    simp [Tracker.latitude, Tracker.longitude, Tracker.accuracy, Tracker.address,
      Tracker.alert_type, Tracker.last_report_time, Tracker.modem_temperature, h]
  · cases h : t.last_report with
    | none => simp [Tracker.update_location, h]
    | some r =>
      by_cases htc : r.time_created = e.time_created <;>
        simp [Tracker.update_location, h, htc]
  · by_cases hn : t.name = d.name ∧ t.model = d.device_type <;>
      simp [Tracker.update_device, hn]
  · intro h
    obtain ⟨r, hr⟩ := Option.isSome_iff_exists.mp h
    simp [Tracker.latitude, Tracker.longitude, Tracker.accuracy, Tracker.address,
      Tracker.alert_type, Tracker.last_report_time, Tracker.modem_temperature, hr]

/-- C6 witness: the freshly constructed dev-a tracker rejects a latitude
read with MissingDataError, and after recording entryT1 it does not. -/
theorem claim_C6_witness :
    ((Tracker.init foundA).latitude = Except.error PyError.missingData)
    ∧ (trackerA.latitude ≠ Except.error PyError.missingData) := by
  refine ⟨?_, ?_⟩
  · exact ((claim_C6_missing_data (Tracker.init foundA) foundA entryT1).2.1 rfl).1
  · exact ((claim_C6_missing_data trackerA foundA entryT1).2.2.2.2 rfl).1

/-- C7: on a Tracker holding a recorded location, the accuracy accessor
yields 10000 when the stored entry's accuracy is falsy (zero; the schema
does not admit null for this field), and the Python int() truncation of
the stored accuracy otherwise. -/
theorem claim_C7_accuracy (t : Tracker) (r : HistoryEntry)
    (h : t.last_report = some r) :
    (r.accuracy = 0 → t.accuracy = Except.ok 10000)
    ∧ (r.accuracy ≠ 0 → t.accuracy = Except.ok (pyInt r.accuracy)) := by
  refine ⟨?_, ?_⟩
  · intro hz
    simp [Tracker.accuracy, h, hz]
    norm_num [pyInt]
  · intro hz
    simp [Tracker.accuracy, h, hz]

/-- C7 witness: with a stored accuracy of zero the accessor yields 10000;
with the stored accuracy 807.957 it yields the truncation 807. -/
theorem claim_C7_witness :
    (({ trackerA with last_report := some entryAcc0 } : Tracker).accuracy
      = Except.ok 10000)
    ∧ (trackerA.accuracy = Except.ok (pyInt entryT1.accuracy)) := by
  refine ⟨?_, ?_⟩
  · exact (claim_C7_accuracy { trackerA with last_report := some entryAcc0 }
      entryAcc0 rfl).1 rfl
  · exact (claim_C7_accuracy trackerA entryT1 rfl).2 (by norm_num [entryT1])

/-- C10: each Tracker mutator touches only its own fields. update_device
leaves the stored last report and the tracker id unchanged;
update_location leaves the stored name, model and tracker id
unchanged. -/
theorem claim_C10_frame (t : Tracker) (d : FoundDevice) (e : HistoryEntry) :
    (((t.update_device d).2).last_report = t.last_report)
    ∧ (((t.update_device d).2).id = t.id)
    ∧ (((t.update_location e).2).name = t.name)
    ∧ (((t.update_location e).2).model = t.model)
    ∧ (((t.update_location e).2).id = t.id) := by
  refine ⟨?_, ?_, ?_, ?_, ?_⟩
  · by_cases hn : t.name = d.name ∧ t.model = d.device_type <;>
      simp [Tracker.update_device, hn]
  · by_cases hn : t.name = d.name ∧ t.model = d.device_type <;>
      simp [Tracker.update_device, hn]
  · cases h : t.last_report with
    | none => simp [Tracker.update_location, h]
    | some r =>
      by_cases htc : r.time_created = e.time_created <;>
        simp [Tracker.update_location, h, htc]
  · cases h : t.last_report with
    | none => simp [Tracker.update_location, h]
    | some r =>
      by_cases htc : r.time_created = e.time_created <;>
        simp [Tracker.update_location, h, htc]
  · cases h : t.last_report with
    | none => simp [Tracker.update_location, h]
    | some r =>
      by_cases htc : r.time_created = e.time_created <;>
        simp [Tracker.update_location, h, htc]

/-- C1 (evaluation at the failing input): the server answers 401 to the
first request on the session, 200 with a parseable login body to the
second (the reauthentication POST), and 200 with the payload to any
further request, so a single retry of the original request would succeed.
Both _get and _post nevertheless raise the HTTP error of the original 401
response: the retry flag is already False when the while condition is
re-checked (the continue in _post lands on that False condition), so the
original request is never re-issued and raise_for_status runs on the 401
response even though reauthentication succeeded. The claim's expected
outcome at this input is Outcome.ok with the payload body. -/
theorem claim_C1_no_retry_after_reauth :
    (clientGet retryServer sampleParse 5 pathUsersMe ClientState.init
      = Outcome.error (PyError.httpError 401))
    ∧ (clientPost retryServer sampleParse 5 loginPath
        { username := "u", password := "p", twoFactorCode := "" } ClientState.init
      = Outcome.error (PyError.httpError 401)) :=
  ⟨rfl, rfl⟩

/-- Helper: against a server that answers 401 to every request, the
reauthentication flow never terminates, whatever the fuel: each 401 in
_post re-enters _reauthenticate, which issues the same login POST
again. -/
theorem reauthenticate_alwaysUnauthorized (parse : String → Option LoginResult) :
    ∀ (fuel : Nat) (st : ClientState),
      clientReauthenticate alwaysUnauthorized parse fuel st = Outcome.diverges := by
  intro fuel
  induction fuel with
  | zero =>
    intro st
    rfl
  | succ n ih =>
    intro st
    simp [clientReauthenticate, clientPostWith, alwaysUnauthorized, ih]

/-- C3 (evaluation at the failing input): when the stored credentials are
invalid and the login endpoint therefore answers 401, Hub._login neither
raises InvalidCredentials nor returns at all: the 401 branch of _post
sleeps the fixed interval and calls _reauthenticate, which issues the
same login POST again, recursing without bound — modelled as divergence
at every recursion fuel. The claim expects Outcome.error
PyError.invalidCredentials, raised immediately without any retry. -/
theorem claim_C3_login_on_401_diverges (fuel : Nat)
    (parse : String → Option LoginResult)
    (username password : String) (st : ClientState) :
    hubLogin alwaysUnauthorized parse fuel username password st
      = Outcome.diverges := by
  unfold hubLogin clientLogin
  rw [reauthenticate_alwaysUnauthorized]

/-- Helper: dict lookup after dict assignment. -/
theorem dmLookup_dmSet (m : DeviceMap) (key k : String) (v : Tracker) :
    dmLookup (dmSet m key v) k = if key = k then some v else dmLookup m k := by
  induction m with
  | nil => simp [dmLookup, dmSet]
  | cons p rest ih =>
    obtain ⟨k0, t0⟩ := p
    by_cases h0 : k0 = key
    · subst h0
      by_cases hk : k0 = k <;> simp [dmSet, dmLookup, hk]
    · by_cases hk : k0 = k
      · have hkey : ¬key = k := fun h => h0 (hk.trans h.symm)
        have hkey2 : ¬k = key := fun h => hkey h.symm
        simp [dmSet, h0, dmLookup, hk, hkey, hkey2]
      · simp [dmSet, h0, dmLookup, hk, ih]

/-- Helper: setting the device flag for one id leaves every other id's
entry in the published mapping unchanged. -/
theorem cmLookup_cmSetDevice_other (m : ChangeMap) (key k : String) (b : Bool)
    (h : key ≠ k) :
    cmLookup (cmSetDevice m key b) k = cmLookup m k := by
  induction m with
  | nil => simp [cmSetDevice, cmLookup, h]
  | cons p rest ih =>
    obtain ⟨k0, f0⟩ := p
    by_cases h0 : k0 = key
    · subst h0
      simp [cmSetDevice, cmLookup, h]
    · simp [cmSetDevice, h0, cmLookup, ih]

/-- Helper: after setting the device flag for an id, that id's entry
exists and carries the assigned boolean. -/
theorem cmLookup_cmSetDevice_self (m : ChangeMap) (key : String) (b : Bool) :
    ∃ f, cmLookup (cmSetDevice m key b) key = some f ∧ f.device = some b := by
  induction m with
  | nil =>
    refine ⟨{ device := some b, location := none }, ?_, rfl⟩
    simp [cmSetDevice, cmLookup]
  | cons p rest ih =>
    obtain ⟨k0, f0⟩ := p
    by_cases h0 : k0 = key
    · subst h0
      refine ⟨{ f0 with device := some b }, ?_, rfl⟩
      simp [cmSetDevice, cmLookup]
    · obtain ⟨f, hf, hfd⟩ := ih
      refine ⟨f, ?_, hfd⟩
      simp [cmSetDevice, h0, cmLookup, hf]

/-- Helper: each discovery step rewrites the registry through a dict
assignment at the discovered device's uuid. -/
theorem discoverStep_registry (acc : DeviceMap × ChangeMap) (d : FoundDevice) :
    ∃ tr, (discoverStep acc d).1 = dmSet acc.1 d.device_uuid tr := by
  cases h : dmLookup acc.1 d.device_uuid with
  | none => exact ⟨Tracker.init d, by simp [discoverStep, h]⟩
  | some tracker => exact ⟨(tracker.update_device d).2, by simp [discoverStep, h]⟩

/-- Helper: the discovery loop never removes a registry key. -/
theorem discoverFold_registry_mono (found : List FoundDevice) :
    ∀ (devs : DeviceMap) (data : ChangeMap) (k : String),
      dmLookup devs k ≠ none →
      dmLookup ((found.foldl discoverStep (devs, data)).1) k ≠ none := by
  induction found with
  | nil =>
    intro devs data k h
    simpa using h
  | cons d rest ih =>
    intro devs data k h
    obtain ⟨tr, htr⟩ := discoverStep_registry (devs, data) d
    have h2 : dmLookup ((discoverStep (devs, data) d).1) k ≠ none := by
      rw [htr, dmLookup_dmSet]
      by_cases hu : d.device_uuid = k <;> simp [hu, h]
    have := ih (discoverStep (devs, data) d).1 (discoverStep (devs, data) d).2 k h2
    simpa using this

/-- Helper: every device in the discovery response is registered once the
discovery loop has run. -/
theorem discoverFold_registered (found : List FoundDevice) :
    ∀ (devs : DeviceMap) (data : ChangeMap) (d : FoundDevice), d ∈ found →
      dmLookup ((found.foldl discoverStep (devs, data)).1) d.device_uuid ≠ none := by
  induction found with
  | nil =>
    intro devs data d h
    exact absurd h (List.not_mem_nil d)
  | cons d0 rest ih =>
    intro devs data d h
    rcases List.mem_cons.mp h with h1 | h1
    · subst h1
      obtain ⟨tr, htr⟩ := discoverStep_registry (devs, data) d
      have h2 : dmLookup ((discoverStep (devs, data) d).1) d.device_uuid ≠ none := by
        rw [htr, dmLookup_dmSet]
        simp
      have := discoverFold_registry_mono rest (discoverStep (devs, data) d).1
        (discoverStep (devs, data) d).2 d.device_uuid h2
      simpa using this
    · have := ih (discoverStep (devs, data) d0).1 (discoverStep (devs, data) d0).2 d h1
      simpa using this

/-- Helper: the discovery loop touches the published mapping only at the
uuids of the devices it processes. -/
theorem discoverFold_data_untouched (found : List FoundDevice) :
    ∀ (devs : DeviceMap) (data : ChangeMap) (k : String),
      k ∉ found.map FoundDevice.device_uuid →
      cmLookup ((found.foldl discoverStep (devs, data)).2) k = cmLookup data k := by
  induction found with
  | nil =>
    intro devs data k _
    rfl
  | cons d0 rest ih =>
    intro devs data k hk
    have hk0 : d0.device_uuid ≠ k := by
      intro h
      exact hk (by simp [h.symm])
    have hkr : k ∉ rest.map FoundDevice.device_uuid := by
      intro h
      exact hk (by simp [h])
    have hstep : cmLookup ((discoverStep (devs, data) d0).2) k = cmLookup data k := by
      cases h : dmLookup devs d0.device_uuid with
      | none => simp [discoverStep, h]
      | some tracker =>
        simp only [discoverStep, h]
        exact cmLookup_cmSetDevice_other data d0.device_uuid k _ hk0
    have := ih (discoverStep (devs, data) d0).1 (discoverStep (devs, data) d0).2 k hkr
    simp at this
    simp [this, hstep]

/-- Helper: a device already registered when the discovery loop starts
gets its update_device boolean recorded under the device key of its
uuid's entry, and the entry survives to the end of the loop when the
discovery response lists each uuid at most once. -/
theorem discoverFold_known_flag (found : List FoundDevice) :
    ∀ (devs : DeviceMap) (data : ChangeMap) (d : FoundDevice) (tr : Tracker),
      (found.map FoundDevice.device_uuid).Nodup →
      d ∈ found →
      dmLookup devs d.device_uuid = some tr →
      ∃ f, cmLookup ((found.foldl discoverStep (devs, data)).2) d.device_uuid = some f
        ∧ f.device = some (tr.update_device d).1 := by
  induction found with
  | nil =>
    intro devs data d tr _ hmem _
    exact absurd hmem (List.not_mem_nil d)
  | cons d0 rest ih =>
    intro devs data d tr hnodup hmem htr
    have hmap : (d0.device_uuid :: rest.map FoundDevice.device_uuid).Nodup := by
      simpa using hnodup
    have hnodup0 : d0.device_uuid ∉ rest.map FoundDevice.device_uuid :=
      (List.nodup_cons.mp hmap).1
    have hnodupr : (rest.map FoundDevice.device_uuid).Nodup :=
      (List.nodup_cons.mp hmap).2
    rcases List.mem_cons.mp hmem with h1 | h1
    · subst h1
      have hstep2 : (discoverStep (devs, data) d).2
          = cmSetDevice data d.device_uuid (tr.update_device d).1 := by
        simp [discoverStep, htr]
      have huntouched := discoverFold_data_untouched rest
        (discoverStep (devs, data) d).1 (discoverStep (devs, data) d).2
        d.device_uuid hnodup0
      obtain ⟨f, hf, hfd⟩ :=
        cmLookup_cmSetDevice_self data d.device_uuid (tr.update_device d).1
      refine ⟨f, ?_, hfd⟩
      calc cmLookup ((List.foldl discoverStep (devs, data) (d :: rest)).2) d.device_uuid
          = cmLookup ((List.foldl discoverStep (discoverStep (devs, data) d) rest).2)
              d.device_uuid := by simp
        _ = cmLookup ((discoverStep (devs, data) d).2) d.device_uuid := huntouched
        _ = some f := by rw [hstep2]; exact hf
    · have hdmem : d.device_uuid ∈ rest.map FoundDevice.device_uuid :=
        List.mem_map_of_mem FoundDevice.device_uuid h1
      have hne : d0.device_uuid ≠ d.device_uuid := fun h => hnodup0 (h ▸ hdmem)
      have hstep1 : dmLookup ((discoverStep (devs, data) d0).1) d.device_uuid = some tr := by
        obtain ⟨tr0, htr0⟩ := discoverStep_registry (devs, data) d0
        rw [htr0, dmLookup_dmSet]
        simp [hne, htr]
      have := ih (discoverStep (devs, data) d0).1 (discoverStep (devs, data) d0).2
        d tr hnodupr h1 hstep1
      simpa using this

/-- Helper: a uuid that is neither registered nor present in the
published mapping when the discovery loop starts has no entry in the
published mapping when the loop ends, when the discovery response lists
each uuid at most once (a first appearance registers the device without
recording a change). -/
theorem discoverFold_new_no_entry (found : List FoundDevice) :
    ∀ (devs : DeviceMap) (data : ChangeMap) (k : String),
      (found.map FoundDevice.device_uuid).Nodup →
      dmLookup devs k = none →
      cmLookup data k = none →
      cmLookup ((found.foldl discoverStep (devs, data)).2) k = none := by
  induction found with
  | nil =>
    intro devs data k _ _ hd
    simpa using hd
  | cons d0 rest ih =>
    intro devs data k hnodup hdevs hdata
    have hmap : (d0.device_uuid :: rest.map FoundDevice.device_uuid).Nodup := by
      simpa using hnodup
    have hnodup0 : d0.device_uuid ∉ rest.map FoundDevice.device_uuid :=
      (List.nodup_cons.mp hmap).1
    have hnodupr : (rest.map FoundDevice.device_uuid).Nodup :=
      (List.nodup_cons.mp hmap).2
    by_cases hk : d0.device_uuid = k
    · subst hk
      have hstep2 : (discoverStep (devs, data) d0).2 = data := by
        simp [discoverStep, hdevs]
      have huntouched := discoverFold_data_untouched rest
        (discoverStep (devs, data) d0).1 (discoverStep (devs, data) d0).2
        d0.device_uuid hnodup0
      calc cmLookup ((List.foldl discoverStep (devs, data) (d0 :: rest)).2) d0.device_uuid
          = cmLookup ((List.foldl discoverStep (discoverStep (devs, data) d0) rest).2)
              d0.device_uuid := by simp
        _ = cmLookup ((discoverStep (devs, data) d0).2) d0.device_uuid := huntouched
        _ = none := by rw [hstep2]; exact hdata
    · have hd1 : dmLookup ((discoverStep (devs, data) d0).1) k = none := by
        obtain ⟨tr0, htr0⟩ := discoverStep_registry (devs, data) d0
        rw [htr0, dmLookup_dmSet]
        simp [hk, hdevs]
      have hd2 : cmLookup ((discoverStep (devs, data) d0).2) k = none := by
        cases h : dmLookup devs d0.device_uuid with
        | none => simpa [discoverStep, h] using hdata
        | some tracker =>
          have heq : (discoverStep (devs, data) d0).2
              = cmSetDevice data d0.device_uuid (tracker.update_device d0).1 := by
            simp [discoverStep, h]
          rw [heq, cmLookup_cmSetDevice_other data d0.device_uuid k _ hk]
          exact hdata
      have := ih (discoverStep (devs, data) d0).1 (discoverStep (devs, data) d0).2
        k hnodupr hd1 hd2
      simpa using this

/-- Helper: the location loop issues at most one history request per
subscribed id, all of them with page 1 and page size 1, and nothing but
history requests. -/
theorem locationPhase_trace (env : ApiEnv) :
    ∀ (ids : List String) (devs : DeviceMap) (data : ChangeMap),
      ((locationPhase env ids devs data).2.length ≤ ids.length)
      ∧ (∀ c ∈ (locationPhase env ids devs data).2, isHistoryCall c = true) := by
  intro ids
  induction ids with
  | nil =>
    intro devs data
    simp [locationPhase]
  | cons tid rest ih =>
    intro devs data
    cases hdm : dmLookup devs tid with
    | none => simp [locationPhase, hdm]
    | some tracker =>
      cases hh : env.get_device_history_page tracker.id 1 1 with
      | error e => simp [locationPhase, hdm, hh, isHistoryCall]
      | ok page =>
        cases hs : page.success with
        | true => simp [locationPhase, hdm, hh, hs, isHistoryCall]
        | false =>
          have hlen := (ih devs data).1
          have hmem := (ih devs data).2
          constructor
          · simp only [locationPhase, hdm, hh, hs, List.length_cons]
            exact Nat.succ_le_succ hlen
          · intro c hc
            have hc2 : c = ApiCall.history tracker.id 1 1
                ∨ c ∈ (locationPhase env rest devs data).2 := by
              simpa [locationPhase, hdm, hh, hs] using hc
            rcases hc2 with h1 | h1
            · simp [h1, isHistoryCall]
            · exact hmem c h1

/-- Helper: when the location loop completes without raising, it returns
the published mapping it was given unchanged. -/
theorem locationPhase_ok (env : ApiEnv) :
    ∀ (ids : List String) (devs : DeviceMap) (data m : ChangeMap),
      (locationPhase env ids devs data).1 = Except.ok m → m = data := by
  intro ids
  induction ids with
  | nil =>
    intro devs data m h
    simp [locationPhase] at h
    exact h.symm
  | cons tid rest ih =>
    intro devs data m h
    cases hdm : dmLookup devs tid with
    | none => simp [locationPhase, hdm] at h
    | some tracker =>
      cases hh : env.get_device_history_page tracker.id 1 1 with
      | error e => simp [locationPhase, hdm, hh] at h
      | ok page =>
        cases hs : page.success with
        | true => simp [locationPhase, hdm, hh, hs] at h
        | false =>
          simp only [locationPhase, hdm, hh, hs] at h
          exact ih devs data m h

/-- Helper: _async_update_data in terms of its try-block body: the
result is the body's mapping on success and UpdateFailed wrapping the
body's exception otherwise, while the registry and the request trace are
those of the body in either case. -/
theorem asyncUpdateData_eq (env : ApiEnv) (ids : List String) (devs : DeviceMap) :
    asyncUpdateData env ids devs
      = ((match (updateDataBody env ids devs).1 with
          | Except.ok data => CycleOutcome.ok data
          | Except.error e => CycleOutcome.updateFailed e),
         (updateDataBody env ids devs).2.1,
         (updateDataBody env ids devs).2.2) := by
  unfold asyncUpdateData
  cases h : updateDataBody env ids devs with
  | mk r p =>
    cases p with
    | mk devs2 calls => cases r <;> simp [h]

/-- C8: every exception raised inside a coordinator refresh cycle is
caught and re-raised as the host scheduler's UpdateFailed condition
wrapping that exception; a cycle with no exception publishes its mapping
unchanged; and the cycle performs no retry of its own: one discovery call
and at most one history fetch per subscribed id. -/
theorem claim_C8_update_failed_wrapping (env : ApiEnv)
    (listening_tracker_ids : List String) (devices : DeviceMap) :
    (∀ e, (updateDataBody env listening_tracker_ids devices).1 = Except.error e →
      (asyncUpdateData env listening_tracker_ids devices).1
        = CycleOutcome.updateFailed e)
    ∧ (∀ m, (updateDataBody env listening_tracker_ids devices).1 = Except.ok m →
      (asyncUpdateData env listening_tracker_ids devices).1 = CycleOutcome.ok m)
    ∧ (((asyncUpdateData env listening_tracker_ids devices).2.2.countP isHistoryCall)
        ≤ listening_tracker_ids.length)
    ∧ (((asyncUpdateData env listening_tracker_ids devices).2.2.countP
        (fun c => ! isHistoryCall c)) = 1) := by
  refine ⟨?_, ?_, ?_, ?_⟩
  · intro e he
    rw [asyncUpdateData_eq]
    simp [he]
  · intro m hm
    rw [asyncUpdateData_eq]
    simp [hm]
  · rw [asyncUpdateData_eq]
    show (updateDataBody env listening_tracker_ids devices).2.2.countP isHistoryCall
      ≤ listening_tracker_ids.length
    cases hf : env.find_devices with
    | error e =>
      simp only [updateDataBody, hf]
      have h0 : List.countP isHistoryCall [ApiCall.findDevices] = 0 := rfl
      rw [h0]
      exact Nat.zero_le _
    | ok found =>
      simp only [updateDataBody, hf]
      have ht := locationPhase_trace env listening_tracker_ids
        (found.foldl discoverStep (devices, [])).1
        (found.foldl discoverStep (devices, [])).2
      calc (ApiCall.findDevices :: (locationPhase env listening_tracker_ids
              (found.foldl discoverStep (devices, [])).1
              (found.foldl discoverStep (devices, [])).2).2).countP isHistoryCall
          = (locationPhase env listening_tracker_ids
              (found.foldl discoverStep (devices, [])).1
              (found.foldl discoverStep (devices, [])).2).2.countP isHistoryCall := by
            simp [List.countP_cons, isHistoryCall]
        _ ≤ (locationPhase env listening_tracker_ids
              (found.foldl discoverStep (devices, [])).1
              (found.foldl discoverStep (devices, [])).2).2.length :=
            List.countP_le_length isHistoryCall
        _ ≤ listening_tracker_ids.length := ht.1
  · rw [asyncUpdateData_eq]
    show (updateDataBody env listening_tracker_ids devices).2.2.countP
        (fun c => ! isHistoryCall c) = 1
    cases hf : env.find_devices with
    | error e => simp [updateDataBody, hf, isHistoryCall]
    | ok found =>
      simp only [updateDataBody, hf]
      have ht := locationPhase_trace env listening_tracker_ids
        (found.foldl discoverStep (devices, [])).1
        (found.foldl discoverStep (devices, [])).2
      have hzero : (locationPhase env listening_tracker_ids
          (found.foldl discoverStep (devices, [])).1
          (found.foldl discoverStep (devices, [])).2).2.countP
          (fun c => ! isHistoryCall c) = 0 := by
        rw [List.countP_eq_zero]
        intro c hc
        simp [ht.2 c hc]
      rw [List.countP_cons, hzero]
      rfl

/-- C8 witness: a cycle whose discovery call raises an HTTP error 500
reports UpdateFailed wrapping that error. -/
theorem claim_C8_witness :
    (asyncUpdateData envDiscoveryFails [devA] devicesA).1
      = CycleOutcome.updateFailed (PyError.httpError 500) :=
  (claim_C8_update_failed_wrapping envDiscoveryFails [devA] devicesA).1
    (PyError.httpError 500) rfl

/-- C9: across a refresh cycle whose discovery response lists each uuid
once, the device registry only grows: every previously registered id is
still registered afterwards and every discovered device is registered
afterwards (no deregistration path exists); each discovered device whose
uuid was already registered has its update_device boolean recorded under
the device key of the published mapping; and a device discovered for the
first time contributes no entry to the published mapping. -/
theorem claim_C9_registry_monotonic (env : ApiEnv)
    (listening_tracker_ids : List String) (devices : DeviceMap)
    (found : List FoundDevice)
    (hfind : env.find_devices = Except.ok found)
    (hnodup : (found.map FoundDevice.device_uuid).Nodup) :
    (∀ k, dmLookup devices k ≠ none →
      dmLookup ((asyncUpdateData env listening_tracker_ids devices).2.1) k ≠ none)
    ∧ (∀ d ∈ found,
      dmLookup ((asyncUpdateData env listening_tracker_ids devices).2.1)
        d.device_uuid ≠ none)
    ∧ (∀ d ∈ found, ∀ tr, dmLookup devices d.device_uuid = some tr →
      ∀ m, (asyncUpdateData env listening_tracker_ids devices).1 = CycleOutcome.ok m →
      ∃ f, cmLookup m d.device_uuid = some f ∧ f.device = some (tr.update_device d).1)
    ∧ (∀ d ∈ found, dmLookup devices d.device_uuid = none →
      ∀ m, (asyncUpdateData env listening_tracker_ids devices).1 = CycleOutcome.ok m →
      cmLookup m d.device_uuid = none) := by
  have hreg : (asyncUpdateData env listening_tracker_ids devices).2.1
      = (found.foldl discoverStep (devices, [])).1 := by
    rw [asyncUpdateData_eq]
    show (updateDataBody env listening_tracker_ids devices).2.1 = _
    simp only [updateDataBody, hfind]
  have hok : ∀ m, (asyncUpdateData env listening_tracker_ids devices).1
      = CycleOutcome.ok m → m = (found.foldl discoverStep (devices, [])).2 := by
    intro m hm
    rw [asyncUpdateData_eq] at hm
    have hbody : (updateDataBody env listening_tracker_ids devices).1
        = Except.ok m := by
      cases hb : (updateDataBody env listening_tracker_ids devices).1 with
      | ok data =>
        rw [hb] at hm
        simp at hm
        rw [hm]
      | error e =>
        rw [hb] at hm
        simp at hm
    have hloc : (locationPhase env listening_tracker_ids
        (found.foldl discoverStep (devices, [])).1
        (found.foldl discoverStep (devices, [])).2).1 = Except.ok m := by
      rw [← hbody]
      simp only [updateDataBody, hfind]
    exact locationPhase_ok env listening_tracker_ids
      (found.foldl discoverStep (devices, [])).1
      (found.foldl discoverStep (devices, [])).2 m hloc
  refine ⟨?_, ?_, ?_, ?_⟩
  · intro k hk
    rw [hreg]
    exact discoverFold_registry_mono found devices [] k hk
  · intro d hd
    rw [hreg]
    exact discoverFold_registered found devices [] d hd
  · intro d hd tr htr m hm
    rw [hok m hm]
    exact discoverFold_known_flag found devices [] d tr hnodup hd htr
  · intro d hd hnone m hm
    rw [hok m hm]
    exact discoverFold_new_no_entry found devices [] d.device_uuid hnodup hnone rfl

/-- C9 witness: with dev-a already registered and dev-b appearing for the
first time in the discovery response, dev-b is registered by the cycle
and the published mapping has no entry for it, while dev-a's
update_device boolean is recorded. -/
theorem claim_C9_witness :
    (dmLookup ((asyncUpdateData envC9 [devA] devicesA).2.1) devB ≠ none)
    ∧ (cmLookup [(devA, { device := some false, location := none })] devB = none)
    ∧ (∃ f, cmLookup [(devA, { device := some false, location := none })] devA
        = some f ∧ f.device = some (trackerA.update_device foundA).1) := by
  have h := claim_C9_registry_monotonic envC9 [devA] devicesA [foundA, foundB]
    rfl (by decide)
  have hmemB : foundB ∈ [foundA, foundB] :=
    List.mem_cons_of_mem foundA (List.mem_cons_self foundB [])
  have hmemA : foundA ∈ [foundA, foundB] := List.mem_cons_self foundA [foundB]
  refine ⟨h.2.1 foundB hmemB, ?_, ?_⟩
  · exact h.2.2.2 foundB hmemB rfl
      [(devA, { device := some false, location := none })] rfl
  · exact h.2.2.1 foundA hmemA trackerA rfl
      [(devA, { device := some false, location := none })] rfl

/-- C2 (evaluation at the failing input): dev-a is registered and
subscribed, and its history fetch returns a successful page carrying
entryT2. The cycle issues exactly the discovery call and the single
page=1, page_size=1 history request for dev-a, but the statement that
should record the location boolean reads tracker.update, an attribute
Tracker does not define (its methods are update_device and
update_location), so the cycle raises AttributeError and reports
UpdateFailed instead of recording update_location's result under the
location key. The claim expects CycleOutcome.ok with the location
boolean true for dev-a. -/
theorem claim_C2_location_update_attribute_error :
    ((asyncUpdateData envC2 [devA] devicesA).1
      = CycleOutcome.updateFailed (PyError.attributeError updateAttr))
    ∧ ((asyncUpdateData envC2 [devA] devicesA).2.2
      = [ApiCall.findDevices, ApiCall.history devA 1 1]) :=
  ⟨rfl, rfl⟩
